import Mathlib

/-!
Verification of the recommendation/ranking core of the MIT-PE-AIML-TEAM2
health-insurance chooser (v1.2.0).

The development is a shallow embedding of the TypeScript sources:
- `src/lib/recommendation-engine-v3.ts` : `scorePlan`, `applyEliminationRules`,
  `comparePlans`, `getRecommendationsV3`;
- `src/lib/recommendation-engine-v2.ts` : `calculateCompletenessScore`,
  `passesHardFilters`;
- `src/lib/adaptive-ranking-engine.ts` : `calculateDiscriminativePower`,
  `rankQuestionsForSession`, `getNextBestQuestion`.

Modelling conventions:
- JS `number` is modelled as `ℚ` (all values produced by the engine are exact
  rationals); counts are `ℕ`; `Math.round` is `jsRound x = ⌊x + 1/2⌋`.
- TS tri-state fields (`T | null | undefined`) are `Option T`; `null` and
  `undefined` are both `none` (the source always tests them together).
- JS truthiness of an optional boolean is `Option.getD false`; JS `x || d`
  on an optional number (`0`, `null`, `undefined` are falsy) is `jsOr`.
- `Array.prototype.sort(cmp)` is modelled as the stable sort `stableSort`
  with "a stays before b unless cmp(a,b) requires otherwise".
- Fields of the source records that no verified property touches (ids, price
  fields, explanation strings such as `drivers`/`tradeOffs`) are omitted.
-/

/-- JS `x || d` for an optional numeric `x`: `null`/`undefined`/`0` all fall
back to the default `d` (0 is falsy in JS). -/
def jsOr (v : Option ℚ) (d : ℚ) : ℚ :=
  match v with
  | some q => if q = 0 then d else q
  | none => d

/-- JS `Math.round`: round half toward positive infinity. -/
def jsRound (x : ℚ) : ℤ :=
  ⌊x + 1/2⌋

/-- JS `Math.round(x * 100) / 100` (round to two decimals), as in
`scorePlan`'s final score. -/
def round2 (x : ℚ) : ℚ :=
  ((jsRound (x * 100) : ℚ)) / 100

/-- Stable insertion of `x` into `l`: `x` passes over every element it is not
strictly required to precede.  Inserting the elements of a list in order
therefore keeps the original relative order of elements the comparator does
not separate, which is the stability guarantee of `Array.prototype.sort`. -/
def sortInsert {α : Type} (lt : α → α → Bool) (x : α) : List α → List α
  | [] => [x]
  | y :: ys => if lt x y then x :: y :: ys else y :: sortInsert lt x ys

/-- Stable sort modelling `Array.prototype.sort(cmp)`, with
`lt a b = (cmp a b < 0)`. -/
def stableSort {α : Type} (lt : α → α → Bool) (l : List α) : List α :=
  l.foldl (fun acc x => sortInsert lt x acc) []

/-- `hospital_cover` enumeration from `src/lib/types.ts`. -/
inductive HospitalLevel
  | PUBLIC
  | SEMI_PRIVATE
  | PRIVATE
  | HI_TECH
deriving DecidableEq

/-- `plan_tier` enumeration from `src/lib/types.ts`. -/
inductive PlanTier
  | BASIC
  | MID
  | HIGH
  | PREMIUM
deriving DecidableEq

/-- `priceSensitivity` enumeration from `src/lib/types.ts` (only its
presence/absence matters to the engine). -/
inductive PriceSensitivity
  | BUDGET
  | BALANCED
  | PREMIUM
deriving DecidableEq

/-- `UserPreferences` (src/lib/types.ts), restricted to the fields the v3
engine reads.  Absent key = `none` = unanswered. -/
structure UserPreferences where
  hospitalLevel : Option HospitalLevel := none
  outpatientCover : Option Bool := none
  gpVisits : Option Bool := none
  maternityNeeded : Option Bool := none
  mentalHealthCover : Option Bool := none
  overseasCoverage : Option Bool := none
  priceSensitivity : Option PriceSensitivity := none
deriving DecidableEq

/-- `HealthInsurancePlan` (src/lib/types.ts), restricted to the fields the v3
engine reads.  Benefit fields are tri-state (`none` = null/undefined =
unknown). -/
structure HealthInsurancePlan where
  plan_name : String := ""
  plan_tier : PlanTier := PlanTier.BASIC
  hospital_cover : Option HospitalLevel := none
  outpatient_cover : Option Bool := none
  gp_visits : Option Bool := none
  maternity_cover : Option Bool := none
  mental_health : Option Bool := none
  overseas_emergency : Option Bool := none
  completeness_score : Option ℚ := none
deriving DecidableEq

/-- The part of `ScoringSpec` (src/lib/types.ts) read by `scorePlan`:
`feature_scoring` lookups (which may be absent, hence `Option`) and
`tier_multipliers`. -/
structure ScoringSpec where
  hospital_cover : HospitalLevel → Option ℚ
  outpatient_cover_yes : Option ℚ := none
  outpatient_cover_no : Option ℚ := none
  gp_visits_yes : Option ℚ := none
  gp_visits_no : Option ℚ := none
  maternity_cover_yes : Option ℚ := none
  maternity_cover_no : Option ℚ := none
  mental_health_yes : Option ℚ := none
  mental_health_no : Option ℚ := none
  overseas_emergency_yes : Option ℚ := none
  overseas_emergency_no : Option ℚ := none
  tier_multipliers : PlanTier → Option ℚ

/-- The `breakdown : Record<string, number>` built by `scorePlan`
(src/lib/recommendation-engine-v3.ts, lines 27-115): a key is present
(`some`) exactly when the corresponding preference block ran. -/
structure Breakdown where
  hospital_cover : Option ℚ := none
  outpatient_cover : Option ℚ := none
  gp_visits : Option ℚ := none
  maternity_cover : Option ℚ := none
  mental_health : Option ℚ := none
  overseas_emergency : Option ℚ := none
  tier_multiplier : Option ℚ := none
deriving DecidableEq

/-- Return type of `scorePlan`. -/
structure ScoreResult where
  score : ℚ
  breakdown : Breakdown
  verificationFlags : List String
deriving DecidableEq

/-- `scorePlan` (src/lib/recommendation-engine-v3.ts, lines 18-122).
Each answered preference adds `feature_scoring` points picked purely from
the preference and the spec (with the source's `|| default` fallbacks); a
verification flag is pushed when the plan's corresponding field is
null/undefined; if `priceSensitivity` is set, the score is multiplied by
the plan-tier multiplier (`|| 1.0`); the result is rounded to 2 decimals. -/
def scorePlan (plan : HealthInsurancePlan) (preferences : UserPreferences)
    (scoringSpec : ScoringSpec) : ScoreResult :=
  let hospitalScore : Option ℚ :=
    preferences.hospitalLevel.map (fun lvl => jsOr (scoringSpec.hospital_cover lvl) 0)
  let outpatientScore : Option ℚ :=
    preferences.outpatientCover.map (fun b =>
      if b then jsOr scoringSpec.outpatient_cover_yes 10 else jsOr scoringSpec.outpatient_cover_no 0)
  let gpScore : Option ℚ :=
    preferences.gpVisits.map (fun b =>
      if b then jsOr scoringSpec.gp_visits_yes 8 else jsOr scoringSpec.gp_visits_no 0)
  let maternityScore : Option ℚ :=
    preferences.maternityNeeded.map (fun b =>
      if b then jsOr scoringSpec.maternity_cover_yes 15 else jsOr scoringSpec.maternity_cover_no 0)
  let mentalScore : Option ℚ :=
    preferences.mentalHealthCover.map (fun b =>
      if b then jsOr scoringSpec.mental_health_yes 10 else jsOr scoringSpec.mental_health_no 0)
  let overseasScore : Option ℚ :=
    preferences.overseasCoverage.map (fun b =>
      if b then jsOr scoringSpec.overseas_emergency_yes 12 else jsOr scoringSpec.overseas_emergency_no 0)
  let baseScore : ℚ :=
    hospitalScore.getD 0 + outpatientScore.getD 0 + gpScore.getD 0 +
      maternityScore.getD 0 + mentalScore.getD 0 + overseasScore.getD 0
  let tierMultiplier : Option ℚ :=
    preferences.priceSensitivity.map (fun _ => jsOr (scoringSpec.tier_multipliers plan.plan_tier) 1)
  let finalScore : ℚ :=
    match tierMultiplier with
    | some m => baseScore * m
    | none => baseScore
  let verificationFlags : List String :=
    (if preferences.hospitalLevel.isSome && plan.hospital_cover.isNone then
      ["Hospital cover not verified"] else []) ++
    (if preferences.outpatientCover.isSome && plan.outpatient_cover.isNone then
      ["Outpatient cover not verified"] else []) ++
    (if preferences.gpVisits.isSome && plan.gp_visits.isNone then
      ["GP visits not verified"] else []) ++
    (if preferences.maternityNeeded.isSome && plan.maternity_cover.isNone then
      ["Maternity cover not verified"] else []) ++
    (if preferences.mentalHealthCover.isSome && plan.mental_health.isNone then
      ["Mental health cover not verified"] else []) ++
    (if preferences.overseasCoverage.isSome && plan.overseas_emergency.isNone then
      ["Overseas coverage not verified"] else [])
  { score := round2 finalScore
    breakdown :=
      { hospital_cover := hospitalScore
        outpatient_cover := outpatientScore
        gp_visits := gpScore
        maternity_cover := maternityScore
        mental_health := mentalScore
        overseas_emergency := overseasScore
        tier_multiplier := tierMultiplier }
    verificationFlags := verificationFlags }

/-- `applyEliminationRules` (src/lib/recommendation-engine-v3.ts, lines
131-159), translated literally: note that the maternity / mental-health /
overseas rules use JS truthiness `!plan.field`, which is `true` for `null`
and `undefined` as well as for `false`. -/
def applyEliminationRules (plans : List HealthInsurancePlan)
    (preferences : UserPreferences) : List HealthInsurancePlan :=
  plans.filter (fun plan =>
    if preferences.hospitalLevel == some HospitalLevel.PRIVATE &&
        plan.hospital_cover == some HospitalLevel.PUBLIC then false
    else if preferences.maternityNeeded.getD false && !(plan.maternity_cover.getD false) then false
    else if preferences.mentalHealthCover.getD false && !(plan.mental_health.getD false) then false
    else if preferences.overseasCoverage.getD false && !(plan.overseas_emergency.getD false) then false
    else true)

/-- The scored-plan tuples the v3 orchestrator sorts. -/
structure ScoredPlan where
  plan : HealthInsurancePlan
  score : ℚ
  breakdown : Breakdown := {}
  verificationFlags : List String
deriving DecidableEq

/-- `comparePlans` (src/lib/recommendation-engine-v3.ts, lines 167-185):
score gap above 5 decides by score; otherwise `completeness_score || 0`
decides; otherwise fewer verification flags win. -/
def comparePlans (a b : ScoredPlan) : ℚ :=
  if |a.score - b.score| > 5 then b.score - a.score
  else
    let aCompleteness := a.plan.completeness_score.getD 0
    let bCompleteness := b.plan.completeness_score.getD 0
    if aCompleteness ≠ bCompleteness then bCompleteness - aCompleteness
    else (a.verificationFlags.length : ℚ) - (b.verificationFlags.length : ℚ)

/-- Steps 1-3 of `getRecommendationsV3` (src/lib/recommendation-engine-v3.ts,
lines 204-225): eliminate, score every surviving plan, sort with
`comparePlans`. -/
def scoredSortedV3 (plans : List HealthInsurancePlan) (preferences : UserPreferences)
    (scoringSpec : ScoringSpec) : List ScoredPlan :=
  let filteredPlans := applyEliminationRules plans preferences
  let scoredPlans := filteredPlans.map (fun plan =>
    let r := scorePlan plan preferences scoringSpec
    { plan := plan
      score := r.score
      breakdown := r.breakdown
      verificationFlags := r.verificationFlags : ScoredPlan })
  stableSort (fun a b => decide (comparePlans a b < 0)) scoredPlans

/-- `ComparisonResult` (src/lib/types.ts), restricted to the fields built by
`getRecommendationsV3` that the verified properties touch (`drivers`,
`tradeOffs` and `sourceUrl` are presentation strings and are omitted). -/
structure ComparisonResult where
  plan : HealthInsurancePlan
  score : ℤ
  matchPercentage : ℤ
  verificationNeeded : Bool
  verificationFlags : List String
  completenessScore : ℚ
deriving DecidableEq

/-- Steps 4-5 of `getRecommendationsV3` (src/lib/recommendation-engine-v3.ts,
lines 228-269): take the top 5 of the sorted scored plans and normalize each
score relative to the top result's raw score
(`relativeScore = Math.round(rec.score / maxScore * 100)`).  An empty pool
maps to an empty result list. -/
def getRecommendationsV3 (plans : List HealthInsurancePlan) (preferences : UserPreferences)
    (scoringSpec : ScoringSpec) : List ComparisonResult :=
  let topRecommendations := (scoredSortedV3 plans preferences scoringSpec).take 5
  match topRecommendations with
  | [] => []
  | top0 :: rest =>
    (top0 :: rest).map (fun rec =>
      let relativeScore := jsRound (rec.score / top0.score * 100)
      { plan := rec.plan
        score := relativeScore
        matchPercentage := relativeScore
        verificationNeeded := decide (0 < rec.verificationFlags.length)
        verificationFlags := rec.verificationFlags
        completenessScore := rec.plan.completeness_score.getD 0 })

/-- The plan shape read by the v2 engine (camelCase benefit fields; see the
key-field list in src/lib/recommendation-engine-v2.ts, lines 55-65). -/
structure PlanV2 where
  hospitalCover : Option HospitalLevel := none
  outpatientCover : Option Bool := none
  gpVisits : Option Bool := none
  maternityIncluded : Option Bool := none
  mentalHealthCover : Option Bool := none
  overseasEmergency : Option Bool := none
  semiPrivateRoom : Option Bool := none
  privateRoom : Option Bool := none
  excessRequired : Option Bool := none
deriving DecidableEq

/-- The preference fields read by v2's `passesHardFilters`; each is the JS
truthiness of a possibly-absent boolean answer. -/
structure PreferencesV2 where
  needsMaternity : Bool := false
  needsMentalHealth : Bool := false
  needsOverseas : Bool := false
deriving DecidableEq

/-- Null-ness of the fixed 9 key fields, in the order of the `keyFields`
array of `calculateCompletenessScore` (src/lib/recommendation-engine-v2.ts,
lines 55-65). -/
def keyFieldNullFlags (plan : PlanV2) : List Bool :=
  [plan.hospitalCover.isNone, plan.outpatientCover.isNone, plan.gpVisits.isNone,
   plan.maternityIncluded.isNone, plan.mentalHealthCover.isNone,
   plan.overseasEmergency.isNone, plan.semiPrivateRoom.isNone,
   plan.privateRoom.isNone, plan.excessRequired.isNone]

/-- Number of null/undefined key fields (`nullCount` of
`calculateCompletenessScore`). -/
def nullKeyCount (plan : PlanV2) : ℕ :=
  (keyFieldNullFlags plan).count true

/-- Number of known (non-null) key fields. -/
def knownKeyCount (plan : PlanV2) : ℕ :=
  (keyFieldNullFlags plan).count false

/-- `calculateCompletenessScore` (src/lib/recommendation-engine-v2.ts, lines
54-76): `1 - nullCount / keyFields.length` with `keyFields.length = 9`. -/
def calculateCompletenessScore (plan : PlanV2) : ℚ :=
  1 - (nullKeyCount plan : ℚ) / 9

/-- `passesHardFilters` (src/lib/recommendation-engine-v2.ts, lines 195-213):
a hard requirement removes a plan only when the plan field is explicitly
`false` (`=== false`); `null`/unknown is kept. -/
def passesHardFilters (plan : PlanV2) (preferences : PreferencesV2) : Bool :=
  if preferences.needsMaternity && (plan.maternityIncluded == some false) then false
  else if preferences.needsMentalHealth && (plan.mentalHealthCover == some false) then false
  else if preferences.needsOverseas && (plan.overseasEmergency == some false) then false
  else true

/-- A `QuestionStatistics` row as read by the adaptive ranking engine
(src/lib/adaptive-ranking-engine.ts): only the key and the (possibly absent)
discriminative power matter to the verified properties. -/
structure QuestionStatistics where
  questionKey : String
  discriminativePower : Option ℚ := none
deriving DecidableEq

/-- `rankQuestionsForSession` (src/lib/adaptive-ranking-engine.ts, lines
25-46): sorts by `(b.discriminativePower || 0) - (a.discriminativePower || 0)`,
i.e. descending discriminative power, with `Array.prototype.sort`. -/
def rankQuestionsForSession (questions : List QuestionStatistics) : List QuestionStatistics :=
  stableSort
    (fun a b =>
      decide ((b.discriminativePower.getD 0) - (a.discriminativePower.getD 0) < 0))
    questions

/-- `getNextBestQuestion` (src/lib/adaptive-ranking-engine.ts, lines 344-379)
after its database query: filter out the answered questions; if nothing
remains return `null`, otherwise the top-ranked remaining question.  The
session id and current answers are ignored by the ranking logic and omitted. -/
def getNextBestQuestion (allQuestions : List QuestionStatistics)
    (answeredQuestionKeys : List String) : Option QuestionStatistics :=
  let remainingQuestions :=
    allQuestions.filter (fun q => !(answeredQuestionKeys.contains q.questionKey))
  if remainingQuestions.isEmpty then none
  else (rankQuestionsForSession remainingQuestions).head?

/-- `calculateDiscriminativePower` (src/lib/adaptive-ranking-engine.ts, lines
63-77): `0` when `totalPlans = 0`, else `|plansWithYes - plansWithNo| /
totalPlans`.  The question key is only logged. -/
def calculateDiscriminativePower (questionKey : String) (plansWithYes plansWithNo totalPlans : ℕ) : ℚ :=
  if totalPlans = 0 then 0
  else |(plansWithYes : ℚ) - (plansWithNo : ℚ)| / (totalPlans : ℚ)

/-!
Concrete fixtures used by the witnesses and counterexamples below.
-/

/-- A scoring spec giving 80 points to a wanted maternity cover, tier
multipliers 1 (BASIC) and 83/80 (MID), and nothing else. -/
def specFix : ScoringSpec :=
  { hospital_cover := fun _ => none
    maternity_cover_yes := some 80
    tier_multipliers := fun t =>
      match t with
      | PlanTier.BASIC => some 1
      | PlanTier.MID => some (83/80)
      | _ => none }

/-- BASIC-tier plan with maternity cover and completeness 0.9; scores 80
under `specFix`/`prefsFix`. -/
def planA : HealthInsurancePlan :=
  { plan_name := "A", plan_tier := PlanTier.BASIC, maternity_cover := some true,
    completeness_score := some (9/10) }

/-- MID-tier plan with maternity cover and completeness 0.6; scores 83 under
`specFix`/`prefsFix`. -/
def planB : HealthInsurancePlan :=
  { plan_name := "B", plan_tier := PlanTier.MID, maternity_cover := some true,
    completeness_score := some (3/5) }

/-- Preferences answering only the maternity question (yes) and a price
sensitivity (so the tier multiplier applies). -/
def prefsFix : UserPreferences :=
  { maternityNeeded := some true, priceSensitivity := some PriceSensitivity.BUDGET }

/-- Plan whose maternity field is null (unknown). -/
def planNullM : HealthInsurancePlan :=
  { plan_name := "N", plan_tier := PlanTier.BASIC, maternity_cover := none,
    completeness_score := some (1/2) }

/-- Plan with maternity cover explicitly false. -/
def planFalseM : HealthInsurancePlan :=
  { plan_name := "F", plan_tier := PlanTier.BASIC, maternity_cover := some false }

/-- Plan with maternity cover explicitly true. -/
def planTrueM : HealthInsurancePlan :=
  { plan_name := "T", plan_tier := PlanTier.BASIC, maternity_cover := some true }

/-- A bare plan carrying only a completeness score. -/
def compPlan (c : ℚ) : HealthInsurancePlan :=
  { completeness_score := some c }

/-- Scored tuple: score 0, completeness 0.9. -/
def tupA : ScoredPlan :=
  { plan := compPlan (9/10), score := 0, verificationFlags := [] }

/-- Scored tuple: score 4, completeness 0.5. -/
def tupB : ScoredPlan :=
  { plan := compPlan (1/2), score := 4, verificationFlags := [] }

/-- Scored tuple: score 8, completeness 0.1. -/
def tupC : ScoredPlan :=
  { plan := compPlan (1/10), score := 8, verificationFlags := [] }

/-- Scored tuple: score 80, completeness 0.9 (scenario C). -/
def tieA : ScoredPlan :=
  { plan := compPlan (9/10), score := 80, verificationFlags := [] }

/-- Scored tuple: score 83, completeness 0.6 (scenario C). -/
def tieB : ScoredPlan :=
  { plan := compPlan (3/5), score := 83, verificationFlags := [] }

/-- The scored tuple the v3 orchestrator produces for `planA`. -/
def scoredA : ScoredPlan :=
  { plan := planA, score := 80,
    breakdown := { maternity_cover := some 80, tier_multiplier := some 1 },
    verificationFlags := [] }

/-- The scored tuple the v3 orchestrator produces for `planB`. -/
def scoredB : ScoredPlan :=
  { plan := planB, score := 83,
    breakdown := { maternity_cover := some 80, tier_multiplier := some (83/80) },
    verificationFlags := [] }

/-- v2 plan with `maternityIncluded` null. -/
def planV2Null : PlanV2 :=
  { maternityIncluded := none }

/-- v2 plan with `maternityIncluded` explicitly false. -/
def planV2False : PlanV2 :=
  { maternityIncluded := some false }

/-- v2 plan with `maternityIncluded` explicitly true. -/
def planV2True : PlanV2 :=
  { maternityIncluded := some true }

/-- v2 plan with all nine key fields null. -/
def planV2AllNull : PlanV2 := {}

/-- v2 plan with all nine key fields known. -/
def planV2AllKnown : PlanV2 :=
  { hospitalCover := some HospitalLevel.PUBLIC, outpatientCover := some true,
    gpVisits := some false, maternityIncluded := some true,
    mentalHealthCover := some false, overseasEmergency := some true,
    semiPrivateRoom := some true, privateRoom := some false,
    excessRequired := some true }

/-- v2 preferences with a hard maternity requirement. -/
def prefsV2M : PreferencesV2 :=
  { needsMaternity := true }

/-- A question-statistics row for the maternity question. -/
def qStat : QuestionStatistics :=
  { questionKey := "maternity" }

/-- Every boolean list splits its length into its `true` count and its
`false` count. -/
theorem count_true_add_count_false (l : List Bool) :
    l.count true + l.count false = l.length := by
  induction l with
  | nil => simp
  | cons b bs ih => cases b <;> simp [List.count_cons] <;> omega

/-- C1 (code bug evaluation).  The claim says a plan whose field for a hard
requirement is null survives the Elimination Filter.  v3's
`applyEliminationRules` eliminates the null-maternity plan `planNullM` under
`maternityNeeded = true` (its `!plan.maternity_cover` test treats null like
false), contradicting its own NULL-safety comments; it does remove the
explicit-false plan and keep the explicit-true plan.  v2's
`passesHardFilters` behaves as the claim states: null and true are kept,
only explicit false is removed. -/
theorem elimination_null_safety_divergence :
    applyEliminationRules [planNullM] prefsFix = [] ∧
    applyEliminationRules [planFalseM] prefsFix = [] ∧
    applyEliminationRules [planTrueM] prefsFix = [planTrueM] ∧
    passesHardFilters planV2Null prefsV2M = true ∧
    passesHardFilters planV2True prefsV2M = true ∧
    passesHardFilters planV2False prefsV2M = false := by
  refine ⟨by decide, by decide, by decide, by decide, by decide, by decide⟩

/-- C2 (code bug evaluation).  The claim says a null plan field for an
answered preference scores 0 points and raises a verification flag.  At the
failing input (`maternityNeeded = true`, `plan.maternity_cover = null`,
spec awarding 80 for maternity) `scorePlan` does append the flag but awards
the full 80 preference points to `breakdown[maternity_cover]`, not 0 —
contradicting its own doc comment "NULL fields contribute 0 points". -/
theorem scoring_null_safety_divergence :
    (scorePlan planNullM prefsFix specFix).breakdown.maternity_cover = some 80 ∧
    ¬((scorePlan planNullM prefsFix specFix).breakdown.maternity_cover = some 0) ∧
    (scorePlan planNullM prefsFix specFix).verificationFlags
      = ["Maternity cover not verified"] := by
  refine ⟨?_, ?_, by decide⟩
  · norm_num [scorePlan, planNullM, prefsFix, specFix, jsOr]
  · norm_num [scorePlan, planNullM, prefsFix, specFix, jsOr]

/-- C3 (confirmed).  Ranking precedence: whenever two scored plans' raw
scores differ by at most the closeness threshold of 5 points, `comparePlans`
treats the scores as tied and ranks the plan with the strictly higher
`completeness_score` first (a negative comparator value places `a` before
`b`), regardless of which of the two raw scores is larger. -/
theorem comparePlans_closeness_completeness_precedence (a b : ScoredPlan)
    (h1 : |a.score - b.score| ≤ 5)
    (h2 : b.plan.completeness_score.getD 0 < a.plan.completeness_score.getD 0) :
    comparePlans a b < 0 := by
  simp only [comparePlans]
  rw [if_neg (not_lt.mpr h1), if_pos (ne_of_gt h2)]
  linarith

/-- C3 witness: scenario C — scores 80 vs 83 (gap 3 ≤ 5), completeness 0.9
vs 0.6: the completeness-0.9 plan ranks first despite its lower raw score. -/
theorem comparePlans_closeness_completeness_precedence_witness :
    |tieA.score - tieB.score| ≤ 5 ∧
    tieB.plan.completeness_score.getD 0 < tieA.plan.completeness_score.getD 0 ∧
    comparePlans tieA tieB < 0 ∧ tieA.score < tieB.score := by
  have h1 : |tieA.score - tieB.score| ≤ 5 := by norm_num [tieA, tieB]
  have h2 : tieB.plan.completeness_score.getD 0 < tieA.plan.completeness_score.getD 0 := by
    norm_num [tieA, tieB, compPlan]
  exact ⟨h1, h2, comparePlans_closeness_completeness_precedence tieA tieB h1 h2,
    by norm_num [tieA, tieB]⟩

/-- C4 counterexample.  The claim says every returned `relativeScore` lies
in 0–100.  With `planA` (score 80, completeness 0.9) ranked above `planB`
(score 83, completeness 0.6) by the tie-break, the second result's relative
score is round(83/80 × 100) = 104 > 100. -/
theorem relativeScore_range_counterexample :
    ((getRecommendationsV3 [planA, planB] prefsFix specFix).get? 1).map
        ComparisonResult.score = some 104 ∧
    ¬((104 : ℤ) ≤ 100) := by
  constructor
  · norm_num [getRecommendationsV3, scoredSortedV3, applyEliminationRules, scorePlan,
      comparePlans, stableSort, sortInsert, planA, planB, prefsFix, specFix, jsOr,
      round2, jsRound]
  · norm_num

/-- C4 (amended).  Every result of `getRecommendationsV3` carries
`relativeScore = round(rawScore / topResult.rawScore * 100)` (the top
result being the head of the sorted, truncated scored list, with nonzero
raw score); the 0–100 range bound of the original claim does not hold, as
the counterexample shows. -/
theorem relativeScore_normalization_formula (plans : List HealthInsurancePlan)
    (preferences : UserPreferences) (scoringSpec : ScoringSpec)
    (top0 : ScoredPlan) (rest : List ScoredPlan)
    (h : (scoredSortedV3 plans preferences scoringSpec).take 5 = top0 :: rest)
    (h0 : top0.score ≠ 0) :
    ∀ r ∈ getRecommendationsV3 plans preferences scoringSpec,
      ∃ s, s ∈ top0 :: rest ∧ r.score = jsRound (s.score / top0.score * 100) ∧
        r.plan = s.plan := by
  intro r hr
  unfold getRecommendationsV3 at hr
  rw [h] at hr
  simp only [List.mem_map] at hr
  obtain ⟨s, hs, heq⟩ := hr
  exact ⟨s, hs, by rw [← heq], by rw [← heq]⟩

/-- C4 witness: the two-plan run of the counterexample, with top raw score
80 ≠ 0; every returned result's relative score is the rounded ratio to 80. -/
theorem relativeScore_normalization_formula_witness :
    (scoredSortedV3 [planA, planB] prefsFix specFix).take 5 = scoredA :: [scoredB] ∧
    scoredA.score ≠ 0 ∧
    ∀ r ∈ getRecommendationsV3 [planA, planB] prefsFix specFix,
      ∃ s, s ∈ scoredA :: [scoredB] ∧ r.score = jsRound (s.score / scoredA.score * 100) ∧
        r.plan = s.plan := by
  have h : (scoredSortedV3 [planA, planB] prefsFix specFix).take 5 = scoredA :: [scoredB] := by
    norm_num [scoredSortedV3, applyEliminationRules, scorePlan, comparePlans, stableSort,
      sortInsert, planA, planB, prefsFix, specFix, jsOr, round2, jsRound, scoredA, scoredB,
      Option.some_ne_none, Option.getD, Option.isSome]
  have h0 : scoredA.score ≠ 0 := by norm_num [scoredA]
  exact ⟨h, h0, relativeScore_normalization_formula [planA, planB] prefsFix specFix
    scoredA [scoredB] h h0⟩

/-- C5 counterexample.  The three-level comparator is not transitive, hence
not a total order: with scores 0/4/8 and completeness 0.9/0.5/0.1 the
comparator orders `tupA` before `tupB`, `tupB` before `tupC`, yet `tupC`
before `tupA` (a cycle). -/
theorem comparePlans_not_transitive :
    comparePlans tupA tupB < 0 ∧ comparePlans tupB tupC < 0 ∧
    0 < comparePlans tupA tupC := by
  norm_num [comparePlans, tupA, tupB, tupC, compPlan]

/-- C5 (amended).  The comparator is antisymmetric —
`comparePlans b a = -(comparePlans a b)` for all scored plans — but it is
not transitive (see the counterexample), so it is not a total order and the
sorted output is not uniquely determined by a sortedness property alone. -/
theorem comparePlans_antisymm (a b : ScoredPlan) :
    comparePlans b a = -(comparePlans a b) := by
  simp only [comparePlans]
  rw [abs_sub_comm b.score a.score]
  by_cases h : 5 < |a.score - b.score|
  · rw [if_pos h, if_pos h]
    ring
  · rw [if_neg h, if_neg h]
    by_cases h2 : a.plan.completeness_score.getD 0 = b.plan.completeness_score.getD 0
    · rw [if_neg (by simpa using h2.symm), if_neg (by simpa using h2)]
      ring
    · rw [if_pos (Ne.symm h2), if_pos h2]
      ring

/-- C6 counterexample.  The claim says an answer matching all plans (or no
plans) has discriminative power 0; the code's formula
`|plansWithYes - plansWithNo| / totalPlans` gives 1 for 4 matching out of 4
(and symmetrically for 0 out of 4), not 0. -/
theorem discriminativePower_all_match_counterexample :
    calculateDiscriminativePower "hospitalCover" 4 0 4 = 1 ∧
    ¬(calculateDiscriminativePower "hospitalCover" 4 0 4 = 0) := by
  norm_num [calculateDiscriminativePower]

/-- C6 (amended).  For every question key and `totalPlans > 0`, an answer
matching all plans (`matchingCount = totalPlans`, `nonMatchingCount = 0`)
or matching none (`matchingCount = 0`, `nonMatchingCount = totalPlans`) has
discriminative power 1 — the maximum, not 0 as the original claim stated
(power 0 is instead attained at an even split). -/
theorem discriminativePower_extremes (questionKey : String) (t : ℕ) (h : 0 < t) :
    calculateDiscriminativePower questionKey t 0 t = 1 ∧
    calculateDiscriminativePower questionKey 0 t t = 1 := by
  have ht : t ≠ 0 := Nat.pos_iff_ne_zero.mp h
  have ht0 : (t : ℚ) ≠ 0 := Nat.cast_ne_zero.mpr ht
  constructor <;>
    simp [calculateDiscriminativePower, ht, abs_of_nonneg, abs_of_nonpos, div_self ht0]

/-- C6 witness: with 4 plans, an all-matching answer and a none-matching
answer both have power 1. -/
theorem discriminativePower_extremes_witness :
    (0 < 4) ∧ calculateDiscriminativePower "gpVisits" 4 0 4 = 1 ∧
    calculateDiscriminativePower "gpVisits" 0 4 4 = 1 := by
  refine ⟨by norm_num, (discriminativePower_extremes "gpVisits" 4 (by norm_num)).1,
    (discriminativePower_extremes "gpVisits" 4 (by norm_num)).2⟩

/-- C7 (confirmed).  For all counts with `matchingCount + nonMatchingCount ≤
totalPlans`, `calculateDiscriminativePower` returns
`|matchingCount - nonMatchingCount| / totalPlans`, which lies in [0, 1]. -/
theorem discriminativePower_formula_bounds (questionKey : String) (m n t : ℕ)
    (h : m + n ≤ t) :
    calculateDiscriminativePower questionKey m n t = |(m : ℚ) - (n : ℚ)| / (t : ℚ) ∧
    0 ≤ calculateDiscriminativePower questionKey m n t ∧
    calculateDiscriminativePower questionKey m n t ≤ 1 := by
  rcases Nat.eq_zero_or_pos t with ht | ht
  · have hm : m = 0 := by omega
    have hn : n = 0 := by omega
    subst ht hm hn
    norm_num [calculateDiscriminativePower]
  · have htne : t ≠ 0 := Nat.pos_iff_ne_zero.mp ht
    have ht0 : (0 : ℚ) < (t : ℚ) := by exact_mod_cast ht
    have habs : |(m : ℚ) - (n : ℚ)| ≤ (t : ℚ) := by
      have hmn : (m : ℚ) + n ≤ t := by exact_mod_cast h
      have hn : (0 : ℚ) ≤ n := by positivity
      have hm : (0 : ℚ) ≤ m := by positivity
      rw [abs_sub_le_iff]
      constructor <;> linarith
    refine ⟨by simp [calculateDiscriminativePower, htne], ?_, ?_⟩
    · simp only [calculateDiscriminativePower, if_neg htne]
      positivity
    · simp only [calculateDiscriminativePower, if_neg htne]
      rw [div_le_one ht0]
      exact habs

/-- C7 witness: scenario B — 272 plans, 150 matching vs 122 non-matching
gives |150 - 122| / 272 = 28/272 (≈ 0.1029), inside [0, 1]. -/
theorem discriminativePower_formula_bounds_witness :
    (150 + 122 ≤ 272) ∧
    calculateDiscriminativePower "hospitalCover" 150 122 272
      = |(150 : ℚ) - (122 : ℚ)| / (272 : ℚ) ∧
    0 ≤ calculateDiscriminativePower "hospitalCover" 150 122 272 ∧
    calculateDiscriminativePower "hospitalCover" 150 122 272 ≤ 1 ∧
    calculateDiscriminativePower "hospitalCover" 150 122 272 = 28/272 := by
  obtain ⟨hf, hnn, hle⟩ :=
    discriminativePower_formula_bounds "hospitalCover" 150 122 272 (by norm_num)
  exact ⟨by norm_num, hf, hnn, hle, by norm_num [calculateDiscriminativePower]⟩

/-- C8 (confirmed).  Empty results are not errors: the v3 orchestrator
returns an empty list when the input plan list is empty and whenever
elimination removes every plan, and the adaptive ranker's next-question
operation returns `none` whenever no unanswered question remains. -/
theorem empty_results_not_errors :
    (∀ (preferences : UserPreferences) (scoringSpec : ScoringSpec),
      getRecommendationsV3 [] preferences scoringSpec = []) ∧
    (∀ (plans : List HealthInsurancePlan) (preferences : UserPreferences)
        (scoringSpec : ScoringSpec),
      applyEliminationRules plans preferences = [] →
      getRecommendationsV3 plans preferences scoringSpec = []) ∧
    (∀ (allQuestions : List QuestionStatistics) (answeredQuestionKeys : List String),
      allQuestions.filter (fun q => !(answeredQuestionKeys.contains q.questionKey)) = [] →
      getNextBestQuestion allQuestions answeredQuestionKeys = none) := by
  refine ⟨?_, ?_, ?_⟩
  · intro preferences scoringSpec
    simp [getRecommendationsV3, scoredSortedV3, applyEliminationRules, stableSort]
  · intro plans preferences scoringSpec h
    simp [getRecommendationsV3, scoredSortedV3, h, stableSort]
  · intro allQuestions answeredQuestionKeys h
    simp only [getNextBestQuestion]
    rw [h]
    rfl

/-- C8 witness: a one-plan list fully removed by elimination yields `[]`
(not an error), the empty plan list yields `[]`, and a pool whose only
question was already answered yields `none`. -/
theorem empty_results_not_errors_witness :
    applyEliminationRules [planNullM] prefsFix = [] ∧
    getRecommendationsV3 [planNullM] prefsFix specFix = [] ∧
    getRecommendationsV3 [] prefsFix specFix = [] ∧
    [qStat].filter (fun q => !((["maternity"] : List String).contains q.questionKey)) = [] ∧
    getNextBestQuestion [qStat] ["maternity"] = none := by
  have h1 : applyEliminationRules [planNullM] prefsFix = [] := by decide
  have h2 : [qStat].filter
      (fun q => !((["maternity"] : List String).contains q.questionKey)) = [] := by decide
  exact ⟨h1, empty_results_not_errors.2.1 [planNullM] prefsFix specFix h1,
    empty_results_not_errors.1 prefsFix specFix, h2,
    empty_results_not_errors.2.2 [qStat] ["maternity"] h2⟩

/-- C9 (confirmed).  Completeness round-trip over the fixed list of N = 9
key fields: `completenessScore = (9 - nullKeyCount)/9`,
`nullKeyCount + knownKeyCount = 9`, an all-known plan scores 1, an all-null
plan scores 0, and the score always lies in [0, 1]. -/
theorem completeness_roundtrip (p : PlanV2) :
    calculateCompletenessScore p = ((9 : ℚ) - (nullKeyCount p : ℚ)) / 9 ∧
    nullKeyCount p + knownKeyCount p = 9 ∧
    (nullKeyCount p = 0 → calculateCompletenessScore p = 1) ∧
    (nullKeyCount p = 9 → calculateCompletenessScore p = 0) ∧
    0 ≤ calculateCompletenessScore p ∧ calculateCompletenessScore p ≤ 1 := by
  have hlen : (keyFieldNullFlags p).length = 9 := by simp [keyFieldNullFlags]
  have hle : nullKeyCount p ≤ 9 := hlen ▸ List.count_le_length true (keyFieldNullFlags p)
  have hleQ : (nullKeyCount p : ℚ) ≤ 9 := by exact_mod_cast hle
  have hnn : (0 : ℚ) ≤ (nullKeyCount p : ℚ) := by positivity
  refine ⟨?_, ?_, ?_, ?_, ?_, ?_⟩
  · unfold calculateCompletenessScore
    field_simp
  · have := count_true_add_count_false (keyFieldNullFlags p)
    unfold nullKeyCount knownKeyCount
    omega
  · intro h
    simp [calculateCompletenessScore, h]
  · intro h
    norm_num [calculateCompletenessScore, h]
  · unfold calculateCompletenessScore
    have : (nullKeyCount p : ℚ) / 9 ≤ 1 := by
      rw [div_le_one (by norm_num)]
      exact hleQ
    linarith
  · unfold calculateCompletenessScore
    have : 0 ≤ (nullKeyCount p : ℚ) / 9 := by positivity
    linarith

/-- C9 witness: the all-null plan has 9 null key fields and score 0; the
all-known plan has 0 null key fields, score 1, and its null and known
counts sum to 9. -/
theorem completeness_roundtrip_witness :
    nullKeyCount planV2AllNull = 9 ∧ calculateCompletenessScore planV2AllNull = 0 ∧
    nullKeyCount planV2AllKnown = 0 ∧ calculateCompletenessScore planV2AllKnown = 1 ∧
    nullKeyCount planV2AllKnown + knownKeyCount planV2AllKnown = 9 := by
  have hnull : nullKeyCount planV2AllNull = 9 := by decide
  have hknown : nullKeyCount planV2AllKnown = 0 := by decide
  exact ⟨hnull, (completeness_roundtrip planV2AllNull).2.2.2.1 hnull, hknown,
    (completeness_roundtrip planV2AllKnown).2.2.1 hknown,
    (completeness_roundtrip planV2AllKnown).2.1⟩

/-- C10 (confirmed).  In the v3 scoring engine the awarded score and the
whole breakdown depend only on the preferences, the scoring spec and the
plan's tier: two plans with the same `plan_tier` always receive the same
score and the same breakdown, whatever their benefit fields; the benefit
fields can only influence the verification flags. -/
theorem scorePlan_depends_only_on_tier (p1 p2 : HealthInsurancePlan)
    (preferences : UserPreferences) (scoringSpec : ScoringSpec)
    (h : p1.plan_tier = p2.plan_tier) :
    (scorePlan p1 preferences scoringSpec).score
      = (scorePlan p2 preferences scoringSpec).score ∧
    (scorePlan p1 preferences scoringSpec).breakdown
      = (scorePlan p2 preferences scoringSpec).breakdown := by
  simp [scorePlan, h]

/-- C10 witness: a null-maternity plan and a true-maternity plan of the same
tier get identical score and breakdown, while their verification flags
differ. -/
theorem scorePlan_depends_only_on_tier_witness :
    planNullM.plan_tier = planTrueM.plan_tier ∧
    (scorePlan planNullM prefsFix specFix).score
      = (scorePlan planTrueM prefsFix specFix).score ∧
    (scorePlan planNullM prefsFix specFix).breakdown
      = (scorePlan planTrueM prefsFix specFix).breakdown ∧
    ¬((scorePlan planNullM prefsFix specFix).verificationFlags
      = (scorePlan planTrueM prefsFix specFix).verificationFlags) := by
  have h : planNullM.plan_tier = planTrueM.plan_tier := by decide
  exact ⟨h, (scorePlan_depends_only_on_tier planNullM planTrueM prefsFix specFix h).1,
    (scorePlan_depends_only_on_tier planNullM planTrueM prefsFix specFix h).2,
    by decide⟩
